import Mathlib

/-!
Aura attribute and effect resolution: a shallow embedding.

The development embeds four source snippets:

* `GameplayAbilitySystem/Snippets/AuraAttributeSet.cpp`
  (`UAuraAttributeSet::PostGameplayEffectExecute`, `UAuraAttributeSet::ShowFloatingText`),
* `GAS/src_snippets/AuraAttributeSet.h` (the attribute storage),
* `GAS/src_snippets/MMC_MaxHealth.cpp`
  (`UMMC_MaxHealth::CalculateBaseMagnitude_Implementation`),
* `GameplayAbilitySystem/Snippets/AuraProjectileSpell.cpp`
  (`UAuraProjectileSpell::SpawnProjectile`).

Conventions.

* `float` values are exact rationals (`ℚ`): rounding, infinities and NaN are not modelled.
* A C++ object pointer is an `Option ObjId`; `none` is `nullptr`, and pointer comparison is
  equality of the option.
* Calls into collaborators (`Die`, `TryActivateAbilitiesByTag`, `ShowDamageNumber`, actor
  spawning, ...) are recorded, in program order, in a trace.
* Dereferencing `nullptr` stops the function: the result keeps the state and the trace reached
  so far together with the `Fault` that stopped it.
-/

namespace Aura

/-! ## Engine primitives -/

/-- Identity of an engine object (the address a pointer holds). -/
abbrev ObjId := Nat

/-- Engine `FMath::Max`: `(B < A) ? A : B`. -/
def FMath.Max (A B : ℚ) : ℚ := if B < A then A else B

/-- Engine `FMath::Min`: `(A < B) ? A : B`. -/
def FMath.Min (A B : ℚ) : ℚ := if A < B then A else B

/-- Engine `FMath::Clamp`: `Max(Min(X, MaxValue), MinValue)`. -/
def FMath.Clamp (X MinValue MaxValue : ℚ) : ℚ :=
  FMath.Max (FMath.Min X MaxValue) MinValue

/-- A gameplay tag, identified by its interned name. -/
structure FGameplayTag where
  TagName : String
deriving DecidableEq, Repr

/-- The project's native tag table `FAuraGameplayTags`; only the entry the snippets read is
kept. Its declaration is not among the snippets, so the table is a parameter. -/
structure FAuraGameplayTags where
  Effects_HitReact : FGameplayTag
deriving DecidableEq, Repr

/-- Handle to the effect context of one effect application. -/
structure FGameplayEffectContextHandle where
  handle : Nat
deriving DecidableEq, Repr

/-- Engine `FVector`. -/
structure FVector where
  X : ℚ
  Y : ℚ
  Z : ℚ
deriving DecidableEq, Repr

/-- Component-wise `FVector::operator-`. -/
def FVector.sub (A B : FVector) : FVector :=
  { X := A.X - B.X, Y := A.Y - B.Y, Z := A.Z - B.Z }

/-- Engine `FRotator`, kept as the direction it faces: the angles of `FVector::Rotation` are
not computed. -/
structure FRotator where
  Direction : FVector
deriving DecidableEq, Repr

/-- `FVector::Rotation`. -/
def FVector.Rotation (V : FVector) : FRotator := { Direction := V }

/-- Engine `FTransform`: the location and rotation the snippets set. -/
structure FTransform where
  Location : FVector
  Rotation : FRotator
deriving DecidableEq, Repr

/-- The part of the object graph the snippets look at through pointers. Each field is the
result of one engine or project call whose body is outside the snippets. -/
structure UWorld where
  /-- Whether `Cast<ICombatInterface>(actor)` yields a non-null interface. -/
  CastICombatInterface : ObjId → Bool
  /-- `ICombatInterface::GetPlayerLevel` of an actor implementing the interface. -/
  GetPlayerLevel : ObjId → Int
  /-- The `ACharacter::Controller` pointer of a character. -/
  Controller : ObjId → Option ObjId
  /-- Whether `Cast<AAuraPlayerController>(controller)` yields a non-null controller. -/
  CastAAuraPlayerController : ObjId → Bool
  /-- `UAuraAbilitySystemLibrary::IsBlockedHit`. -/
  IsBlockedHit : FGameplayEffectContextHandle → Bool
  /-- `UAuraAbilitySystemLibrary::IsCriticalHit`. -/
  IsCriticalHit : FGameplayEffectContextHandle → Bool
  /-- `FAuraGameplayTags::Get()`. -/
  GameplayTags : FAuraGameplayTags
  /-- `AActor::HasAuthority`. -/
  HasAuthority : ObjId → Bool
  /-- `ICombatInterface::GetCombatSocketLocation` of an actor implementing the interface. -/
  GetCombatSocketLocation : ObjId → FVector
  /-- `UAbilitySystemBlueprintLibrary::GetAbilitySystemComponent` of an actor. -/
  GetAbilitySystemComponent : ObjId → Option ObjId
  /-- The actor `UWorld::SpawnActorDeferred` returns for a class (`none` when it fails). -/
  SpawnActorDeferred : Nat → Option ObjId
  /-- The pointer `Cast<APawn>(actor)` yields. -/
  CastAPawn : Option ObjId → Option ObjId

/-- Why a function stopped early: the null pointer it dereferenced. -/
inductive Fault where
  | TargetASC_null
  | SourceCharacter_null
  | CombatInterface_null
  | AvatarActor_null
  | World_null
  | SourceASC_null
  | Projectile_null
deriving DecidableEq, Repr

/-! ## `UAuraAttributeSet` -/

/-- The attributes an effect can evaluate. -/
inductive FGameplayAttribute where
  | Health
  | MaxHealth
  | Mana
  | IncomingDamage
deriving DecidableEq, Repr

/-- Attribute storage of `UAuraAttributeSet` (`AuraAttributeSet.h`): the replicated vitals
`Health` and `Mana` and the transient meta attribute `IncomingDamage`. The header snippet
stops before `MaxHealth`, whose accessor `GetMaxHealth` the resolution code reads; it is kept
as one more attribute of the same kind. The setters generated by `ATTRIBUTE_ACCESSORS` are
plain stores. -/
structure UAuraAttributeSet where
  Health : ℚ
  MaxHealth : ℚ
  Mana : ℚ
  IncomingDamage : ℚ
deriving DecidableEq, Repr

/-- Modelled from the spec: the declaration of `FEffectProperties` is outside the snippets.
The specification describes it as the target properties resolved from the effect context's
weak references (source character, target character, attribute owners), any of which may
have gone stale. The fields are the ones the resolution code reads, each a pointer that may
be null. -/
structure FEffectProperties where
  EffectContextHandle : FGameplayEffectContextHandle
  TargetASC : Option ObjId
  TargetAvatarActor : Option ObjId
  SourceCharacter : Option ObjId
  TargetCharacter : Option ObjId
deriving DecidableEq, Repr

/-- The argument of `PostGameplayEffectExecute`: `Data.EvaluatedData.Attribute`. -/
structure FGameplayEffectModCallbackData where
  EvaluatedAttribute : FGameplayAttribute
deriving DecidableEq, Repr

/-- A call made to an external collaborator during damage resolution. -/
inductive Event where
  /-- `CombatInterface->Die()` on the target avatar. -/
  | Die (TargetAvatarActor : ObjId)
  /-- `TargetASC->TryActivateAbilitiesByTag(TagContainer)`. -/
  | TryActivateAbilitiesByTag (TargetASC : ObjId) (TagContainer : List FGameplayTag)
  /-- `PC->ShowDamageNumber(Damage, TargetCharacter, bBlockedHit, bCriticalHit)`. -/
  | ShowDamageNumber (PC : ObjId) (Damage : ℚ) (TargetCharacter : Option ObjId)
      (bBlockedHit bCriticalHit : Bool)
deriving DecidableEq, Repr

/-- What one call leaves behind: the attribute set, the collaborator calls made, and the
fault that stopped it, if any. -/
structure Outcome where
  attrs : UAuraAttributeSet
  events : List Event
  fault : Option Fault
deriving DecidableEq, Repr

/-- `UAuraAttributeSet::ShowFloatingText` (`AuraAttributeSet.cpp`, lines 50-60): the calls it
makes, or the fault of reading `Controller` through a null `SourceCharacter`. -/
def ShowFloatingText (W : UWorld) (Properties : FEffectProperties) (Damage : ℚ)
    (bBlockedHit bCriticalHit : Bool) : List Event × Option Fault :=
  if Properties.SourceCharacter ≠ Properties.TargetCharacter then
    match Properties.SourceCharacter with
    | none => ([], some Fault.SourceCharacter_null)
    | some SourceCharacter =>
      match W.Controller SourceCharacter with
      | none => ([], none)
      | some PC =>
        if W.CastAAuraPlayerController PC then
          ([Event.ShowDamageNumber PC Damage Properties.TargetCharacter bBlockedHit bCriticalHit],
            none)
        else ([], none)
  else ([], none)

/-- The test `NewHealth <= 0.f` of line 19, on `NewHealth = GetHealth() - LocalIncomingDamage`. -/
def bFatal (Health LocalIncomingDamage : ℚ) : Bool :=
  decide (Health - LocalIncomingDamage ≤ 0)

/-- `UAuraAttributeSet::PostGameplayEffectExecute` (`AuraAttributeSet.cpp`, lines 1-46).
`Super::PostGameplayEffectExecute` is the empty engine base method. -/
def PostGameplayEffectExecute (W : UWorld) (Properties : FEffectProperties)
    (self : UAuraAttributeSet) (Data : FGameplayEffectModCallbackData) : Outcome :=
  if Data.EvaluatedAttribute = FGameplayAttribute.IncomingDamage then
    let LocalIncomingDamage := self.IncomingDamage
    let s1 : UAuraAttributeSet := { self with IncomingDamage := 0 }
    if 0 < LocalIncomingDamage then
      let NewHealth := s1.Health - LocalIncomingDamage
      let s2 : UAuraAttributeSet := { s1 with Health := FMath.Clamp NewHealth 0 s1.MaxHealth }
      let branch : List Event × Option Fault :=
        if bFatal s1.Health LocalIncomingDamage then
          match Properties.TargetAvatarActor with
          | none => ([], none)
          | some Target =>
            if W.CastICombatInterface Target then ([Event.Die Target], none) else ([], none)
        else
          match Properties.TargetASC with
          | none => ([], some Fault.TargetASC_null)
          | some ASC =>
            ([Event.TryActivateAbilitiesByTag ASC [W.GameplayTags.Effects_HitReact]], none)
      match branch.2 with
      | some f => { attrs := s2, events := branch.1, fault := some f }
      | none =>
        let bBlock := W.IsBlockedHit Properties.EffectContextHandle
        let bCritical := W.IsCriticalHit Properties.EffectContextHandle
        let text := ShowFloatingText W Properties LocalIncomingDamage bBlock bCritical
        { attrs := s2, events := branch.1 ++ text.1, fault := text.2 }
    else { attrs := s1, events := [], fault := none }
  else { attrs := self, events := [], fault := none }

/-- The calls of the fatal branch (lines 24-28), used to state the trace lemmas: `Die`, made
only when the target avatar implements the combat interface. -/
def fatalBranchCalls (W : UWorld) (Properties : FEffectProperties) : List Event :=
  match Properties.TargetAvatarActor with
  | none => []
  | some Target => if W.CastICombatInterface Target then [Event.Die Target] else []

/-- Whether an event is a `Die` call. -/
def Event.isDie : Event → Bool
  | Event.Die _ => true
  | _ => false

/-- Whether an event is a hit-reaction activation. -/
def Event.isHitReact : Event → Bool
  | Event.TryActivateAbilitiesByTag _ _ => true
  | _ => false

/-- Whether an event is a `ShowDamageNumber` call. -/
def Event.isShowDamageNumber : Event → Bool
  | Event.ShowDamageNumber _ _ _ _ _ => true
  | _ => false

/-- The `Die` calls of a pass, in order. -/
def Outcome.dieCalls (r : Outcome) : List Event := r.events.filter Event.isDie

/-- The hit-reaction activations of a pass, in order. -/
def Outcome.hitReactCalls (r : Outcome) : List Event := r.events.filter Event.isHitReact

/-- The `ShowDamageNumber` calls of a pass, in order. -/
def Outcome.damageNumberCalls (r : Outcome) : List Event :=
  r.events.filter Event.isShowDamageNumber

/-! ## `UMMC_MaxHealth` -/

/-- `UMMC_MaxHealth::CalculateBaseMagnitude_Implementation` (`MMC_MaxHealth.cpp`).
`CapturedVigor` is what `GetCapturedAttributeMagnitude` writes into `Vigor` (`none` when the
capture fails and `Vigor` keeps its initial `0.f`); `SourceObject` is
`Spec.GetContext().GetSourceObject()`. The interface pointer is dereferenced without a
check. -/
def CalculateBaseMagnitude_Implementation (W : UWorld) (CapturedVigor : Option ℚ)
    (SourceObject : Option ObjId) : Except Fault ℚ :=
  let Vigor0 : ℚ := 0
  let Vigor1 : ℚ := match CapturedVigor with
    | some v => v
    | none => Vigor0
  let Vigor : ℚ := FMath.Max Vigor1 0
  match SourceObject with
  | none => Except.error Fault.CombatInterface_null
  | some Source =>
    if W.CastICombatInterface Source then
      let PlayerLevel : Int := W.GetPlayerLevel Source
      Except.ok (80 + 2.5 * Vigor + 10 * (PlayerLevel : ℚ))
    else Except.error Fault.CombatInterface_null

/-! ## `UAuraProjectileSpell` -/

/-- Engine `FScalableFloat`: a magnitude curve keyed by level. -/
structure FScalableFloat where
  GetValueAtLevel : Int → ℚ

/-- The ability object: the actor info, world and configuration `SpawnProjectile` reads. -/
structure UAuraProjectileSpell where
  this : ObjId
  AvatarActor : Option ObjId
  OwningActor : Option ObjId
  World : Option ObjId
  ProjectileClass : Nat
  DamageEffectClass : Nat
  AbilityLevel : Int
  DamageTypes : List (FGameplayTag × FScalableFloat)

/-- A call `SpawnProjectile` makes, in program order. -/
inductive SpellCall where
  /-- The `UE_LOG(LogTemp, Warning, ...)` line naming the avatar. -/
  | UE_LOG (Avatar : Option ObjId)
  | SpawnActorDeferred (World : ObjId) (ProjectileClass : Nat) (SpawnTransform : FTransform)
      (Owner Instigator : Option ObjId)
  | MakeEffectContext (SourceASC : ObjId)
  | SetAbility (Ability : ObjId)
  | AddSourceObject (Projectile : Option ObjId)
  | AddActors (Actors : List (Option ObjId))
  | AddHitResult (Location : FVector)
  | MakeOutgoingSpec (SourceASC : ObjId) (DamageEffectClass : Nat) (Level : Int)
  | AssignTagSetByCallerMagnitude (DamageType : FGameplayTag) (ScaledDamage : ℚ)
  | SetDamageEffectSpecHandle (Projectile : ObjId)
  | FinishSpawning (Projectile : ObjId) (SpawnTransform : FTransform)
deriving DecidableEq, Repr

/-- What one `SpawnProjectile` call leaves behind. -/
structure SpellOutcome where
  calls : List SpellCall
  fault : Option Fault
deriving DecidableEq, Repr

/-- `UAuraProjectileSpell::SpawnProjectile` (`AuraProjectileSpell.cpp`). -/
def SpawnProjectile (W : UWorld) (self : UAuraProjectileSpell)
    (ProjectileTargetLocation : FVector) : SpellOutcome :=
  let log := SpellCall.UE_LOG self.AvatarActor
  match self.AvatarActor with
  | none => { calls := [log], fault := some Fault.AvatarActor_null }
  | some Avatar =>
    let bIsServer := W.HasAuthority Avatar
    if !bIsServer then { calls := [log], fault := none }
    else if W.CastICombatInterface Avatar then
      let SocketLocation := W.GetCombatSocketLocation Avatar
      let Rotation := (ProjectileTargetLocation.sub SocketLocation).Rotation
      let SpawnTransform : FTransform := { Location := SocketLocation, Rotation := Rotation }
      match self.World with
      | none => { calls := [log], fault := some Fault.World_null }
      | some World =>
        let Projectile := W.SpawnActorDeferred self.ProjectileClass
        let spawn := SpellCall.SpawnActorDeferred World self.ProjectileClass SpawnTransform
          self.OwningActor (W.CastAPawn self.OwningActor)
        match W.GetAbilitySystemComponent Avatar with
        | none => { calls := [log, spawn], fault := some Fault.SourceASC_null }
        | some SourceASC =>
          let calls := [log, spawn, SpellCall.MakeEffectContext SourceASC,
              SpellCall.SetAbility self.this, SpellCall.AddSourceObject Projectile,
              SpellCall.AddActors [Projectile], SpellCall.AddHitResult ProjectileTargetLocation,
              SpellCall.MakeOutgoingSpec SourceASC self.DamageEffectClass self.AbilityLevel]
            ++ self.DamageTypes.map (fun DamageTypePair =>
              SpellCall.AssignTagSetByCallerMagnitude DamageTypePair.1
                (DamageTypePair.2.GetValueAtLevel self.AbilityLevel))
          match Projectile with
          | none => { calls := calls, fault := some Fault.Projectile_null }
          | some P =>
            { calls := calls ++ [SpellCall.SetDamageEffectSpecHandle P,
                SpellCall.FinishSpawning P SpawnTransform], fault := none }
    else { calls := [log], fault := none }

/-- A world in which every actor implements the combat interface and every controller is a
player controller; used for concrete evaluations. -/
def playerWorld : UWorld where
  CastICombatInterface := fun _ => true
  GetPlayerLevel := fun _ => 1
  Controller := fun c => some (c + 100)
  CastAAuraPlayerController := fun _ => true
  IsBlockedHit := fun _ => false
  IsCriticalHit := fun _ => true
  GameplayTags := { Effects_HitReact := { TagName := "Effects.HitReact" } }
  HasAuthority := fun _ => true
  GetCombatSocketLocation := fun _ => { X := 0, Y := 0, Z := 1 }
  GetAbilitySystemComponent := fun a => some (a + 1)
  SpawnActorDeferred := fun _ => some 50
  CastAPawn := fun a => a

/-- A world in which no controller is a player controller (for instance AI opponents) and no
actor has authority (a client). -/
def aiWorld : UWorld where
  CastICombatInterface := fun _ => true
  GetPlayerLevel := fun _ => 1
  Controller := fun c => some (c + 100)
  CastAAuraPlayerController := fun _ => false
  IsBlockedHit := fun _ => false
  IsCriticalHit := fun _ => false
  GameplayTags := { Effects_HitReact := { TagName := "Effects.HitReact" } }
  HasAuthority := fun _ => false
  GetCombatSocketLocation := fun _ => { X := 0, Y := 0, Z := 1 }
  GetAbilitySystemComponent := fun a => some (a + 1)
  SpawnActorDeferred := fun _ => some 50
  CastAPawn := fun a => a

/-- The player world with every player at the given level. -/
def levelWorld (level : Int) : UWorld := { playerWorld with GetPlayerLevel := fun _ => level }

/-- Source character 1 hits target character 2 (avatar 2, ability system component 3). -/
def hitProps : FEffectProperties where
  EffectContextHandle := { handle := 0 }
  TargetASC := some 3
  TargetAvatarActor := some 2
  SourceCharacter := some 1
  TargetCharacter := some 2

/-- An attribute set with the given health, maximum health and pending damage. -/
def mkAttrs (health maxHealth damage : ℚ) : UAuraAttributeSet where
  Health := health
  MaxHealth := maxHealth
  Mana := 10
  IncomingDamage := damage

/-- A callback for a write to `IncomingDamage`. -/
def damageData : FGameplayEffectModCallbackData where
  EvaluatedAttribute := FGameplayAttribute.IncomingDamage

/-- The same hit with no target avatar. -/
def noAvatarProps : FEffectProperties := { hitProps with TargetAvatarActor := none }

/-- The same hit with no source character (damage that no character dealt). -/
def noSourceProps : FEffectProperties := { hitProps with SourceCharacter := none }

/-- The same hit with no target ability system component. -/
def noTargetASCProps : FEffectProperties := { hitProps with TargetASC := none }

/-- A fire bolt ability of level 3 owned by avatar 7, dealing `5 * level` fire damage. -/
def fireBolt : UAuraProjectileSpell where
  this := 9
  AvatarActor := some 7
  OwningActor := some 7
  World := some 0
  ProjectileClass := 1
  DamageEffectClass := 2
  AbilityLevel := 3
  DamageTypes := [({ TagName := "Damage.Fire" }, { GetValueAtLevel := fun l => 5 * (l : ℚ) })]

/-! ## Shared lemmas -/

theorem FMath.Clamp_zero_eq (X M : ℚ) (hM : 0 ≤ M) :
    FMath.Clamp X 0 M = max 0 (min X M) := by
  unfold FMath.Clamp FMath.Max FMath.Min
  by_cases h1 : X < M
  · simp only [h1, if_true]
    rw [min_eq_left (le_of_lt h1)]
    by_cases h2 : 0 < X
    · simp only [h2, if_true]
      exact (max_eq_right (le_of_lt h2)).symm
    · simp only [h2, if_false]
      exact (max_eq_left (not_lt.mp h2)).symm
  · simp only [h1, if_false]
    rw [min_eq_right (not_lt.mp h1)]
    by_cases h2 : 0 < M
    · simp only [h2, if_true]
      exact (max_eq_right hM).symm
    · simp only [h2, if_false]
      exact (max_eq_left (not_lt.mp h2)).symm

/-- The attribute set left by a pass that read a positive damage: `IncomingDamage` is reset
and `Health` holds the clamped difference, whatever happens to the notifications. -/
theorem attrs_of_pos_damage (W : UWorld) (Properties : FEffectProperties)
    (self : UAuraAttributeSet) (Data : FGameplayEffectModCallbackData)
    (hData : Data.EvaluatedAttribute = FGameplayAttribute.IncomingDamage)
    (hpos : 0 < self.IncomingDamage) :
    (PostGameplayEffectExecute W Properties self Data).attrs =
      { self with
        IncomingDamage := 0
        Health := FMath.Clamp (self.Health - self.IncomingDamage) 0 self.MaxHealth } := by
  unfold PostGameplayEffectExecute
  simp only [hData, hpos, if_true]
  split <;> rfl

/-- The attribute set left by a pass that read a damage that is not positive. -/
theorem outcome_of_nonpos_damage (W : UWorld) (Properties : FEffectProperties)
    (self : UAuraAttributeSet) (Data : FGameplayEffectModCallbackData)
    (hData : Data.EvaluatedAttribute = FGameplayAttribute.IncomingDamage)
    (hle : self.IncomingDamage ≤ 0) :
    PostGameplayEffectExecute W Properties self Data =
      { attrs := { self with IncomingDamage := 0 }, events := [], fault := none } := by
  unfold PostGameplayEffectExecute
  simp only [hData, not_lt.mpr hle, if_true, if_false]

/-- A call that evaluated another attribute does nothing. -/
theorem outcome_of_other_attribute (W : UWorld) (Properties : FEffectProperties)
    (self : UAuraAttributeSet) (Data : FGameplayEffectModCallbackData)
    (hData : Data.EvaluatedAttribute ≠ FGameplayAttribute.IncomingDamage) :
    PostGameplayEffectExecute W Properties self Data =
      { attrs := self, events := [], fault := none } := by
  unfold PostGameplayEffectExecute
  simp only [hData, if_false]

/-- Trace and fault of a fatal pass. -/
theorem outcome_of_fatal (W : UWorld) (Properties : FEffectProperties)
    (self : UAuraAttributeSet) (Data : FGameplayEffectModCallbackData)
    (hData : Data.EvaluatedAttribute = FGameplayAttribute.IncomingDamage)
    (hpos : 0 < self.IncomingDamage) (hfatal : self.Health - self.IncomingDamage ≤ 0) :
    (PostGameplayEffectExecute W Properties self Data).events =
        fatalBranchCalls W Properties ++
          (ShowFloatingText W Properties self.IncomingDamage
            (W.IsBlockedHit Properties.EffectContextHandle)
            (W.IsCriticalHit Properties.EffectContextHandle)).1 ∧
      (PostGameplayEffectExecute W Properties self Data).fault =
        (ShowFloatingText W Properties self.IncomingDamage
          (W.IsBlockedHit Properties.EffectContextHandle)
          (W.IsCriticalHit Properties.EffectContextHandle)).2 := by
  unfold PostGameplayEffectExecute fatalBranchCalls
  simp only [hData, hpos, if_true, bFatal, hfatal, decide_True]
  cases hT : Properties.TargetAvatarActor with
  | none => simp
  | some T => by_cases hC : W.CastICombatInterface T = true <;> simp [hC]

/-- Trace and fault of a non-fatal pass whose target ability system component is valid. -/
theorem outcome_of_nonfatal (W : UWorld) (Properties : FEffectProperties)
    (self : UAuraAttributeSet) (Data : FGameplayEffectModCallbackData) (ASC : ObjId)
    (hData : Data.EvaluatedAttribute = FGameplayAttribute.IncomingDamage)
    (hpos : 0 < self.IncomingDamage) (hlive : 0 < self.Health - self.IncomingDamage)
    (hASC : Properties.TargetASC = some ASC) :
    (PostGameplayEffectExecute W Properties self Data).events =
        Event.TryActivateAbilitiesByTag ASC [W.GameplayTags.Effects_HitReact] ::
          (ShowFloatingText W Properties self.IncomingDamage
            (W.IsBlockedHit Properties.EffectContextHandle)
            (W.IsCriticalHit Properties.EffectContextHandle)).1 ∧
      (PostGameplayEffectExecute W Properties self Data).fault =
        (ShowFloatingText W Properties self.IncomingDamage
          (W.IsBlockedHit Properties.EffectContextHandle)
          (W.IsCriticalHit Properties.EffectContextHandle)).2 := by
  unfold PostGameplayEffectExecute
  simp [hData, hpos, bFatal, not_le.mpr hlive, hASC]

/-- Trace and fault of a non-fatal pass whose target ability system component is null: the
pass stops at the dereference, after `Health` was stored. -/
theorem outcome_of_nonfatal_null (W : UWorld) (Properties : FEffectProperties)
    (self : UAuraAttributeSet) (Data : FGameplayEffectModCallbackData)
    (hData : Data.EvaluatedAttribute = FGameplayAttribute.IncomingDamage)
    (hpos : 0 < self.IncomingDamage) (hlive : 0 < self.Health - self.IncomingDamage)
    (hASC : Properties.TargetASC = none) :
    (PostGameplayEffectExecute W Properties self Data).events = [] ∧
      (PostGameplayEffectExecute W Properties self Data).fault = some Fault.TargetASC_null := by
  unfold PostGameplayEffectExecute
  simp [hData, hpos, bFatal, not_le.mpr hlive, hASC]

/-- An event on which a predicate holds is not in a list whose filter by it is empty. -/
theorem not_mem_of_filter_eq_nil (l : List Event) (p : Event → Bool) (e : Event)
    (h : l.filter p = []) (hp : p e = true) : e ∉ l := by
  intro hmem
  have : e ∈ l.filter p := List.mem_filter.mpr ⟨hmem, hp⟩
  rw [h] at this
  exact absurd this (List.not_mem_nil e)

/-- The fatal branch never activates a hit reaction. -/
theorem fatalBranchCalls_filter_isHitReact (W : UWorld) (Properties : FEffectProperties) :
    (fatalBranchCalls W Properties).filter Event.isHitReact = [] := by
  unfold fatalBranchCalls
  cases Properties.TargetAvatarActor with
  | none => rfl
  | some T => by_cases hC : W.CastICombatInterface T = true <;> simp [hC, Event.isHitReact]

/-- Every call of the fatal branch is a `Die` call. -/
theorem fatalBranchCalls_filter_isDie (W : UWorld) (Properties : FEffectProperties) :
    (fatalBranchCalls W Properties).filter Event.isDie = fatalBranchCalls W Properties := by
  unfold fatalBranchCalls
  cases Properties.TargetAvatarActor with
  | none => rfl
  | some T => by_cases hC : W.CastICombatInterface T = true <;> simp [hC, Event.isDie]

/-- The fatal branch never shows a damage number. -/
theorem fatalBranchCalls_filter_isShowDamageNumber (W : UWorld) (Properties : FEffectProperties) :
    (fatalBranchCalls W Properties).filter Event.isShowDamageNumber = [] := by
  unfold fatalBranchCalls
  cases Properties.TargetAvatarActor with
  | none => rfl
  | some T =>
    by_cases hC : W.CastICombatInterface T = true <;> simp [hC, Event.isShowDamageNumber]

/-- The calls of `ShowFloatingText` are `ShowDamageNumber` calls only. -/
theorem ShowFloatingText_filters (W : UWorld) (Properties : FEffectProperties) (Damage : ℚ)
    (bBlockedHit bCriticalHit : Bool) :
    (ShowFloatingText W Properties Damage bBlockedHit bCriticalHit).1.filter Event.isDie = [] ∧
      (ShowFloatingText W Properties Damage bBlockedHit bCriticalHit).1.filter
        Event.isHitReact = [] ∧
      (ShowFloatingText W Properties Damage bBlockedHit bCriticalHit).1.filter
        Event.isShowDamageNumber =
        (ShowFloatingText W Properties Damage bBlockedHit bCriticalHit).1 := by
  unfold ShowFloatingText
  by_cases heq : Properties.SourceCharacter = Properties.TargetCharacter
  · simp [heq]
  · simp only [ne_eq, heq, not_false_eq_true, if_true]
    cases hS : Properties.SourceCharacter with
    | none => simp
    | some S =>
      cases hPC : W.Controller S with
      | none => simp [hPC]
      | some PC =>
        by_cases hC : W.CastAAuraPlayerController PC = true <;>
          simp [hPC, hC, Event.isDie, Event.isHitReact, Event.isShowDamageNumber]

/-- The `ShowDamageNumber` calls of a pass with positive damage that reaches
`ShowFloatingText` (a fatal pass, or one whose target ability system component is valid) are
the calls of `ShowFloatingText`. -/
theorem damageNumberCalls_of_pos_damage (W : UWorld) (Properties : FEffectProperties)
    (self : UAuraAttributeSet) (Data : FGameplayEffectModCallbackData)
    (hData : Data.EvaluatedAttribute = FGameplayAttribute.IncomingDamage)
    (hpos : 0 < self.IncomingDamage)
    (hreach : 0 < self.Health - self.IncomingDamage → Properties.TargetASC ≠ none) :
    (PostGameplayEffectExecute W Properties self Data).damageNumberCalls =
      (ShowFloatingText W Properties self.IncomingDamage
        (W.IsBlockedHit Properties.EffectContextHandle)
        (W.IsCriticalHit Properties.EffectContextHandle)).1 := by
  have hs := ShowFloatingText_filters W Properties self.IncomingDamage
    (W.IsBlockedHit Properties.EffectContextHandle)
    (W.IsCriticalHit Properties.EffectContextHandle)
  rcases le_or_lt (self.Health - self.IncomingDamage) 0 with hfatal | hlive
  · rw [Outcome.damageNumberCalls, (outcome_of_fatal W Properties self Data hData hpos hfatal).1,
      List.filter_append, fatalBranchCalls_filter_isShowDamageNumber, hs.2.2]
    rfl
  · obtain ⟨ASC, hASC⟩ := Option.ne_none_iff_exists'.mp (hreach hlive)
    rw [Outcome.damageNumberCalls,
      (outcome_of_nonfatal W Properties self Data ASC hData hpos hlive hASC).1,
      List.filter_cons]
    simp only [Event.isShowDamageNumber, hs.2.2]
    rfl

/-! ## Health after a resolution pass -/

/-- C1, counterexample: with `Health = 150`, `MaxHealth = 100` and a damage of `0` (so
`damage >= 0` and `maxHealth >= 0` hold) the pass leaves `Health` at `150`, while
`clamp(150 - 0, 0, 100)` is `100`. -/
theorem health_after_zero_damage_counterexample :
    (0 : ℚ) ≤ (mkAttrs 150 100 0).IncomingDamage ∧ (0 : ℚ) ≤ (mkAttrs 150 100 0).MaxHealth ∧
      (PostGameplayEffectExecute playerWorld hitProps (mkAttrs 150 100 0) damageData).attrs.Health
        = 150 ∧
      (PostGameplayEffectExecute playerWorld hitProps (mkAttrs 150 100 0) damageData).attrs.Health
        ≠ max 0 (min ((mkAttrs 150 100 0).Health - (mkAttrs 150 100 0).IncomingDamage)
            (mkAttrs 150 100 0).MaxHealth) := by
  rw [outcome_of_nonpos_damage playerWorld hitProps (mkAttrs 150 100 0) damageData rfl
    (by norm_num [mkAttrs])]
  norm_num [mkAttrs]

/-- C1, as amended: for every damage `>= 0`, every health and every maxHealth `>= 0`, where a
damage of `0` comes with a health already inside `[0, maxHealth]`, the `Health` stored after
`PostGameplayEffectExecute` handled the write to `IncomingDamage` is
`clamp(health - damage, 0, maxHealth)`. It holds for every state of the references, also when
a later notification faults. -/
theorem health_after_damage_resolution (W : UWorld) (Properties : FEffectProperties)
    (self : UAuraAttributeSet) (Data : FGameplayEffectModCallbackData)
    (hData : Data.EvaluatedAttribute = FGameplayAttribute.IncomingDamage)
    (hdamage : 0 ≤ self.IncomingDamage) (hmax : 0 ≤ self.MaxHealth)
    (hzero : self.IncomingDamage = 0 → 0 ≤ self.Health ∧ self.Health ≤ self.MaxHealth) :
    (PostGameplayEffectExecute W Properties self Data).attrs.Health =
      max 0 (min (self.Health - self.IncomingDamage) self.MaxHealth) := by
  rcases lt_or_eq_of_le hdamage with hpos | h0
  · rw [attrs_of_pos_damage W Properties self Data hData hpos]
    exact FMath.Clamp_zero_eq _ _ hmax
  · rw [outcome_of_nonpos_damage W Properties self Data hData (le_of_eq h0.symm)]
    obtain ⟨hlo, hhi⟩ := hzero h0.symm
    show self.Health = _
    rw [← h0, sub_zero, min_eq_left hhi, max_eq_right hlo]

/-- Scenarios 1 and 2 of the specification: from `Health = 50`, `MaxHealth = 100`, a damage of
`30` leaves `20` and a damage of `70` leaves `0`. -/
theorem health_after_damage_resolution_witness :
    (PostGameplayEffectExecute playerWorld hitProps (mkAttrs 50 100 30) damageData).attrs.Health
        = 20 ∧
      (PostGameplayEffectExecute playerWorld hitProps (mkAttrs 50 100 70) damageData).attrs.Health
        = 0 := by
  constructor
  · rw [health_after_damage_resolution playerWorld hitProps (mkAttrs 50 100 30) damageData rfl
      (by norm_num [mkAttrs]) (by norm_num [mkAttrs]) (by norm_num [mkAttrs])]
    norm_num [mkAttrs]
  · rw [health_after_damage_resolution playerWorld hitProps (mkAttrs 50 100 70) damageData rfl
      (by norm_num [mkAttrs]) (by norm_num [mkAttrs]) (by norm_num [mkAttrs])]
    norm_num [mkAttrs]

/-! ## The meta attribute -/

/-- C3: after every pass of `PostGameplayEffectExecute` triggered by a write to
`IncomingDamage`, the `IncomingDamage` attribute is `0`, whatever the damage read (positive,
zero or negative), in the fatal and in the non-fatal branch, and whatever the references. -/
theorem incoming_damage_reset (W : UWorld) (Properties : FEffectProperties)
    (self : UAuraAttributeSet) (Data : FGameplayEffectModCallbackData)
    (hData : Data.EvaluatedAttribute = FGameplayAttribute.IncomingDamage) :
    (PostGameplayEffectExecute W Properties self Data).attrs.IncomingDamage = 0 := by
  rcases lt_or_le 0 self.IncomingDamage with hpos | hle
  · rw [attrs_of_pos_damage W Properties self Data hData hpos]
  · rw [outcome_of_nonpos_damage W Properties self Data hData hle]

/-- The reset in a fatal pass, a non-fatal pass and a pass that read no damage. -/
theorem incoming_damage_reset_witness :
    (PostGameplayEffectExecute playerWorld hitProps (mkAttrs 50 100 70) damageData).attrs.IncomingDamage
        = 0 ∧
      (PostGameplayEffectExecute playerWorld hitProps (mkAttrs 50 100 30) damageData).attrs.IncomingDamage
        = 0 ∧
      (PostGameplayEffectExecute playerWorld hitProps (mkAttrs 50 100 0) damageData).attrs.IncomingDamage
        = 0 :=
  ⟨incoming_damage_reset playerWorld hitProps (mkAttrs 50 100 70) damageData rfl,
    incoming_damage_reset playerWorld hitProps (mkAttrs 50 100 30) damageData rfl,
    incoming_damage_reset playerWorld hitProps (mkAttrs 50 100 0) damageData rfl⟩

/-! ## Damage that is not positive -/

/-- C6: when the damage read from `IncomingDamage` is `<= 0` (zero included), the pass leaves
`Health` unchanged and makes no collaborator call at all (no `Die`, no hit-reaction
activation, no `ShowDamageNumber`), and it does not fault. -/
theorem nonpositive_damage_is_idle (W : UWorld) (Properties : FEffectProperties)
    (self : UAuraAttributeSet) (Data : FGameplayEffectModCallbackData)
    (hle : self.IncomingDamage ≤ 0) :
    (PostGameplayEffectExecute W Properties self Data).attrs.Health = self.Health ∧
      (PostGameplayEffectExecute W Properties self Data).events = [] ∧
      (PostGameplayEffectExecute W Properties self Data).fault = none := by
  by_cases hData : Data.EvaluatedAttribute = FGameplayAttribute.IncomingDamage
  · rw [outcome_of_nonpos_damage W Properties self Data hData hle]
    exact ⟨rfl, rfl, rfl⟩
  · rw [outcome_of_other_attribute W Properties self Data hData]
    exact ⟨rfl, rfl, rfl⟩

/-- Scenario 5 of the specification: a damage of `0` on `Health = 50`. -/
theorem nonpositive_damage_is_idle_witness :
    (PostGameplayEffectExecute playerWorld hitProps (mkAttrs 50 100 0) damageData).attrs.Health
        = (mkAttrs 50 100 0).Health ∧
      (PostGameplayEffectExecute playerWorld hitProps (mkAttrs 50 100 0) damageData).events = [] ∧
      (PostGameplayEffectExecute playerWorld hitProps (mkAttrs 50 100 0) damageData).fault = none :=
  nonpositive_damage_is_idle playerWorld hitProps (mkAttrs 50 100 0) damageData
    (by norm_num [mkAttrs])

/-! ## Frame -/

/-- C9: for every call of `PostGameplayEffectExecute` (any evaluated attribute, any damage,
fatal or not, any references) `MaxHealth` and `Mana` after the call are what they were
before it. -/
theorem max_health_and_mana_unchanged (W : UWorld) (Properties : FEffectProperties)
    (self : UAuraAttributeSet) (Data : FGameplayEffectModCallbackData) :
    (PostGameplayEffectExecute W Properties self Data).attrs.MaxHealth = self.MaxHealth ∧
      (PostGameplayEffectExecute W Properties self Data).attrs.Mana = self.Mana := by
  by_cases hData : Data.EvaluatedAttribute = FGameplayAttribute.IncomingDamage
  · rcases lt_or_le 0 self.IncomingDamage with hpos | hle
    · rw [attrs_of_pos_damage W Properties self Data hData hpos]
      exact ⟨rfl, rfl⟩
    · rw [outcome_of_nonpos_damage W Properties self Data hData hle]
      exact ⟨rfl, rfl⟩
  · rw [outcome_of_other_attribute W Properties self Data hData]
    exact ⟨rfl, rfl⟩

/-! ## The fatal and the non-fatal branch -/

/-- C2, counterexample: a fatal hit (`Health = 50`, damage `70`, so `health - damage <= 0`)
on a target whose avatar pointer is null makes neither a `Die` call nor a hit-reaction
activation. -/
theorem fatal_without_avatar_counterexample :
    (0 : ℚ) < (mkAttrs 50 100 70).IncomingDamage ∧
      (mkAttrs 50 100 70).Health - (mkAttrs 50 100 70).IncomingDamage ≤ 0 ∧
      (PostGameplayEffectExecute playerWorld noAvatarProps (mkAttrs 50 100 70)
        damageData).dieCalls = [] ∧
      (PostGameplayEffectExecute playerWorld noAvatarProps (mkAttrs 50 100 70)
        damageData).hitReactCalls = [] := by
  have h := outcome_of_fatal playerWorld noAvatarProps (mkAttrs 50 100 70) damageData rfl
    (by norm_num [mkAttrs]) (by norm_num [mkAttrs])
  refine ⟨by norm_num [mkAttrs], by norm_num [mkAttrs], ?_, ?_⟩
  · rw [Outcome.dieCalls, h.1]
    simp [fatalBranchCalls, noAvatarProps, ShowFloatingText, hitProps, playerWorld, Event.isDie]
  · rw [Outcome.hitReactCalls, h.1]
    simp [fatalBranchCalls, noAvatarProps, ShowFloatingText, hitProps, playerWorld,
      Event.isHitReact]

/-- C2, as amended: for every pass with damage `> 0`, the fatal branch is taken exactly when
`health - damage <= 0` (before clamping). When fatal, no hit reaction is activated, and `Die`
is called exactly once on the target avatar if that avatar implements the combat interface,
and not at all if the avatar pointer is null or does not implement it. When not fatal and the
target ability system component is valid, the hit reaction is activated exactly once on it
with the `Effects_HitReact` tag and `Die` is not called. No pass makes both calls. -/
theorem fatal_xor_hit_react (W : UWorld) (Properties : FEffectProperties)
    (self : UAuraAttributeSet) (Data : FGameplayEffectModCallbackData)
    (hData : Data.EvaluatedAttribute = FGameplayAttribute.IncomingDamage)
    (hpos : 0 < self.IncomingDamage) :
    (bFatal self.Health self.IncomingDamage = true ↔
        self.Health - self.IncomingDamage ≤ 0) ∧
      (self.Health - self.IncomingDamage ≤ 0 →
        (PostGameplayEffectExecute W Properties self Data).hitReactCalls = [] ∧
        (∀ Target, Properties.TargetAvatarActor = some Target →
          W.CastICombatInterface Target = true →
          (PostGameplayEffectExecute W Properties self Data).dieCalls = [Event.Die Target]) ∧
        ((Properties.TargetAvatarActor = none ∨
            ∃ Target, Properties.TargetAvatarActor = some Target ∧
              W.CastICombatInterface Target = false) →
          (PostGameplayEffectExecute W Properties self Data).dieCalls = [])) ∧
      (0 < self.Health - self.IncomingDamage →
        ∀ ASC, Properties.TargetASC = some ASC →
          (PostGameplayEffectExecute W Properties self Data).hitReactCalls =
            [Event.TryActivateAbilitiesByTag ASC [W.GameplayTags.Effects_HitReact]] ∧
          (PostGameplayEffectExecute W Properties self Data).dieCalls = []) ∧
      ((PostGameplayEffectExecute W Properties self Data).dieCalls = [] ∨
        (PostGameplayEffectExecute W Properties self Data).hitReactCalls = []) := by
  have hnever : (self.Health - self.IncomingDamage ≤ 0 →
      (PostGameplayEffectExecute W Properties self Data).hitReactCalls = []) := by
    intro hfatal
    rw [Outcome.hitReactCalls, (outcome_of_fatal W Properties self Data hData hpos hfatal).1,
      List.filter_append, fatalBranchCalls_filter_isHitReact,
      (ShowFloatingText_filters W Properties self.IncomingDamage
        (W.IsBlockedHit Properties.EffectContextHandle)
        (W.IsCriticalHit Properties.EffectContextHandle)).2.1]
    rfl
  have hlive_die : (0 < self.Health - self.IncomingDamage →
      (PostGameplayEffectExecute W Properties self Data).dieCalls = []) := by
    intro hlive
    cases hASC : Properties.TargetASC with
    | none =>
      rw [Outcome.dieCalls,
        (outcome_of_nonfatal_null W Properties self Data hData hpos hlive hASC).1]
      rfl
    | some ASC =>
      rw [Outcome.dieCalls,
        (outcome_of_nonfatal W Properties self Data ASC hData hpos hlive hASC).1,
        List.filter_cons]
      simp only [Event.isDie, (ShowFloatingText_filters W Properties self.IncomingDamage
        (W.IsBlockedHit Properties.EffectContextHandle)
        (W.IsCriticalHit Properties.EffectContextHandle)).1]
      rfl
  refine ⟨by simp [bFatal], ?_, ?_, ?_⟩
  rotate_left 2
  · rcases le_or_lt (self.Health - self.IncomingDamage) 0 with hfatal | hlive
    · exact Or.inr (hnever hfatal)
    · exact Or.inl (hlive_die hlive)
  · intro hfatal
    have h := (outcome_of_fatal W Properties self Data hData hpos hfatal).1
    have hs := ShowFloatingText_filters W Properties self.IncomingDamage
      (W.IsBlockedHit Properties.EffectContextHandle)
      (W.IsCriticalHit Properties.EffectContextHandle)
    refine ⟨?_, ?_, ?_⟩
    · rw [Outcome.hitReactCalls, h, List.filter_append, hs.2.1,
        fatalBranchCalls_filter_isHitReact]
      rfl
    · intro Target hT hC
      rw [Outcome.dieCalls, h, List.filter_append, hs.1, fatalBranchCalls_filter_isDie,
        List.append_nil]
      simp [fatalBranchCalls, hT, hC]
    · intro hbad
      rw [Outcome.dieCalls, h, List.filter_append, hs.1, fatalBranchCalls_filter_isDie,
        List.append_nil]
      rcases hbad with hnone | ⟨Target, hT, hC⟩
      · simp [fatalBranchCalls, hnone]
      · simp [fatalBranchCalls, hT, hC]
  · intro hlive ASC hASC
    have h := (outcome_of_nonfatal W Properties self Data ASC hData hpos hlive hASC).1
    have hs := ShowFloatingText_filters W Properties self.IncomingDamage
      (W.IsBlockedHit Properties.EffectContextHandle)
      (W.IsCriticalHit Properties.EffectContextHandle)
    constructor
    · rw [Outcome.hitReactCalls, h, List.filter_cons]
      simp only [Event.isHitReact, if_true, hs.2.1]
    · rw [Outcome.dieCalls, h, List.filter_cons]
      simp only [Event.isDie, hs.1]
      rfl

/-- Scenarios 1 and 2 of the specification: from `Health = 50`, a damage of `70` calls `Die`
once on target avatar 2 and activates no hit reaction; a damage of `30` activates the hit
reaction once on ability system component 3 and does not call `Die`. -/
theorem fatal_xor_hit_react_witness :
    ((PostGameplayEffectExecute playerWorld hitProps (mkAttrs 50 100 70) damageData).hitReactCalls
        = [] ∧
      (PostGameplayEffectExecute playerWorld hitProps (mkAttrs 50 100 70) damageData).dieCalls
        = [Event.Die 2]) ∧
      ((PostGameplayEffectExecute playerWorld hitProps (mkAttrs 50 100 30) damageData).hitReactCalls
        = [Event.TryActivateAbilitiesByTag 3 [playerWorld.GameplayTags.Effects_HitReact]] ∧
      (PostGameplayEffectExecute playerWorld hitProps (mkAttrs 50 100 30) damageData).dieCalls
        = []) := by
  have h70 := (fatal_xor_hit_react playerWorld hitProps (mkAttrs 50 100 70) damageData rfl
    (by norm_num [mkAttrs])).2.1 (by norm_num [mkAttrs])
  have h30 := (fatal_xor_hit_react playerWorld hitProps (mkAttrs 50 100 30) damageData rfl
    (by norm_num [mkAttrs])).2.2.1 (by norm_num [mkAttrs]) 3 rfl
  exact ⟨⟨h70.1, h70.2.1 2 rfl rfl⟩, h30⟩

/-! ## Floating text -/

/-- C5, counterexample: source character 1 differs from target character 2, the damage is
positive, and yet no `ShowDamageNumber` call is made, because the controller of the source
is not an `AAuraPlayerController`. -/
theorem damage_number_suppressed_counterexample :
    (0 : ℚ) < (mkAttrs 50 100 30).IncomingDamage ∧
      hitProps.SourceCharacter ≠ hitProps.TargetCharacter ∧
      (PostGameplayEffectExecute aiWorld hitProps (mkAttrs 50 100 30)
        damageData).damageNumberCalls = [] := by
  refine ⟨by norm_num [mkAttrs], by decide, ?_⟩
  rw [damageNumberCalls_of_pos_damage aiWorld hitProps (mkAttrs 50 100 30) damageData rfl
    (by norm_num [mkAttrs]) (fun _ => by decide)]
  simp [ShowFloatingText, hitProps, aiWorld]

/-- C5, as amended: for every pass with damage `> 0` that reaches `ShowFloatingText` (a
fatal pass, or one whose target ability system component is valid): if the source character
equals the target character no `ShowDamageNumber` call is made; if they differ and the source
character is valid, then `ShowDamageNumber` is called exactly once when the controller of the
source is an `AAuraPlayerController`, on that controller, with the damage read from
`IncomingDamage`, the target character and the flags `IsBlockedHit` and `IsCriticalHit` of the
effect context, and it is not called when that controller is null or of another class. -/
theorem damage_number_delivery (W : UWorld) (Properties : FEffectProperties)
    (self : UAuraAttributeSet) (Data : FGameplayEffectModCallbackData)
    (hData : Data.EvaluatedAttribute = FGameplayAttribute.IncomingDamage)
    (hpos : 0 < self.IncomingDamage)
    (hreach : 0 < self.Health - self.IncomingDamage → Properties.TargetASC ≠ none) :
    (Properties.SourceCharacter = Properties.TargetCharacter →
        (PostGameplayEffectExecute W Properties self Data).damageNumberCalls = []) ∧
      (∀ Source, Properties.SourceCharacter = some Source →
        Properties.SourceCharacter ≠ Properties.TargetCharacter →
        (∀ PC, W.Controller Source = some PC → W.CastAAuraPlayerController PC = true →
          (PostGameplayEffectExecute W Properties self Data).damageNumberCalls =
            [Event.ShowDamageNumber PC self.IncomingDamage Properties.TargetCharacter
              (W.IsBlockedHit Properties.EffectContextHandle)
              (W.IsCriticalHit Properties.EffectContextHandle)]) ∧
        ((W.Controller Source = none ∨
            ∃ PC, W.Controller Source = some PC ∧ W.CastAAuraPlayerController PC = false) →
          (PostGameplayEffectExecute W Properties self Data).damageNumberCalls = [])) := by
  rw [damageNumberCalls_of_pos_damage W Properties self Data hData hpos hreach]
  refine ⟨?_, ?_⟩
  · intro heq
    simp [ShowFloatingText, heq]
  · intro Source hS hne
    refine ⟨?_, ?_⟩
    · intro PC hPC hC
      rw [hS] at hne
      simp [ShowFloatingText, hS, hne, hPC, hC]
    · intro hbad
      rw [hS] at hne
      rcases hbad with hnone | ⟨PC, hPC, hC⟩
      · simp [ShowFloatingText, hS, hne, hnone]
      · simp [ShowFloatingText, hS, hne, hPC, hC]

/-- A player-controlled source character 1 hits target character 2 for `30`: one
`ShowDamageNumber` call on controller 101 with the damage, the target and the flags of the
effect context. -/
theorem damage_number_delivery_witness :
    (PostGameplayEffectExecute playerWorld hitProps (mkAttrs 50 100 30)
      damageData).damageNumberCalls =
        [Event.ShowDamageNumber 101 (mkAttrs 50 100 30).IncomingDamage (some 2)
          (playerWorld.IsBlockedHit hitProps.EffectContextHandle)
          (playerWorld.IsCriticalHit hitProps.EffectContextHandle)] :=
  ((damage_number_delivery playerWorld hitProps (mkAttrs 50 100 30) damageData rfl
    (by norm_num [mkAttrs]) (fun _ => by decide)).2 1 rfl (by decide)).1 101 rfl rfl

/-! ## Stale references -/

/-- C7, the code at the failing inputs: a non-fatal hit (`Health = 50`, damage `30`) whose
source character pointer is null while the target character is valid dereferences the null
source in `ShowFloatingText`; the same hit with a null target ability system component
dereferences it in the hit-reaction branch. In both, `Health` already holds `20`. A null
target avatar, by contrast, is guarded: the fatal pass completes without a fault. -/
theorem stale_reference_faults :
    (PostGameplayEffectExecute playerWorld noSourceProps (mkAttrs 50 100 30) damageData).fault
        = some Fault.SourceCharacter_null ∧
      (PostGameplayEffectExecute playerWorld noTargetASCProps (mkAttrs 50 100 30)
        damageData).fault = some Fault.TargetASC_null ∧
      (PostGameplayEffectExecute playerWorld noSourceProps (mkAttrs 50 100 30)
        damageData).attrs.Health = 20 ∧
      (PostGameplayEffectExecute playerWorld noTargetASCProps (mkAttrs 50 100 30)
        damageData).attrs.Health = 20 ∧
      (PostGameplayEffectExecute playerWorld noAvatarProps (mkAttrs 50 100 70) damageData).fault
        = none := by
  refine ⟨?_, ?_, ?_, ?_, ?_⟩
  · rw [(outcome_of_nonfatal playerWorld noSourceProps (mkAttrs 50 100 30) damageData 3 rfl
      (by norm_num [mkAttrs]) (by norm_num [mkAttrs]) rfl).2]
    simp [ShowFloatingText, noSourceProps, hitProps]
  · norm_num [PostGameplayEffectExecute, damageData, mkAttrs, bFatal, noTargetASCProps,
      hitProps]
  · rw [attrs_of_pos_damage playerWorld noSourceProps (mkAttrs 50 100 30) damageData rfl
      (by norm_num [mkAttrs])]
    norm_num [mkAttrs, FMath.Clamp, FMath.Max, FMath.Min]
  · rw [attrs_of_pos_damage playerWorld noTargetASCProps (mkAttrs 50 100 30) damageData rfl
      (by norm_num [mkAttrs])]
    norm_num [mkAttrs, FMath.Clamp, FMath.Max, FMath.Min]
  · rw [(outcome_of_fatal playerWorld noAvatarProps (mkAttrs 50 100 70) damageData rfl
      (by norm_num [mkAttrs]) (by norm_num [mkAttrs])).2]
    simp [ShowFloatingText, noAvatarProps, hitProps, playerWorld]

/-! ## Fatal exactly when health reaches zero -/

/-- C10: for every pass with damage `> 0`, every health and every maxHealth `> 0`, the fatal
branch is taken if and only if the `Health` stored after the pass is exactly `0`, and the
hit-reaction branch is taken if and only if the stored `Health` is strictly positive. In
terms of calls: when the target avatar implements the combat interface, `Die` is called on it
exactly when the stored `Health` is `0`; when the target ability system component is valid,
the hit reaction is activated on it exactly when the stored `Health` is positive. -/
theorem fatal_iff_health_zero (W : UWorld) (Properties : FEffectProperties)
    (self : UAuraAttributeSet) (Data : FGameplayEffectModCallbackData)
    (hData : Data.EvaluatedAttribute = FGameplayAttribute.IncomingDamage)
    (hpos : 0 < self.IncomingDamage) (hmax : 0 < self.MaxHealth) :
    (bFatal self.Health self.IncomingDamage = true ↔
        (PostGameplayEffectExecute W Properties self Data).attrs.Health = 0) ∧
      (bFatal self.Health self.IncomingDamage = false ↔
        0 < (PostGameplayEffectExecute W Properties self Data).attrs.Health) ∧
      (∀ Target, Properties.TargetAvatarActor = some Target →
        W.CastICombatInterface Target = true →
        (Event.Die Target ∈ (PostGameplayEffectExecute W Properties self Data).events ↔
          (PostGameplayEffectExecute W Properties self Data).attrs.Health = 0)) ∧
      (∀ ASC, Properties.TargetASC = some ASC →
        (Event.TryActivateAbilitiesByTag ASC [W.GameplayTags.Effects_HitReact] ∈
            (PostGameplayEffectExecute W Properties self Data).events ↔
          0 < (PostGameplayEffectExecute W Properties self Data).attrs.Health)) := by
  have hH : (PostGameplayEffectExecute W Properties self Data).attrs.Health =
      max 0 (min (self.Health - self.IncomingDamage) self.MaxHealth) := by
    rw [attrs_of_pos_damage W Properties self Data hData hpos]
    exact FMath.Clamp_zero_eq _ _ (le_of_lt hmax)
  have hzero : (PostGameplayEffectExecute W Properties self Data).attrs.Health = 0 ↔
      self.Health - self.IncomingDamage ≤ 0 := by
    rw [hH]
    constructor
    · intro h
      by_contra hc
      have h1 : 0 < min (self.Health - self.IncomingDamage) self.MaxHealth :=
        lt_min (not_le.mp hc) hmax
      rw [max_eq_right (le_of_lt h1)] at h
      exact absurd h (ne_of_gt h1)
    · intro h
      exact max_eq_left (le_trans (min_le_left _ _) h)
  have hposH : 0 < (PostGameplayEffectExecute W Properties self Data).attrs.Health ↔
      0 < self.Health - self.IncomingDamage := by
    have hge : 0 ≤ (PostGameplayEffectExecute W Properties self Data).attrs.Health := by
      rw [hH]
      exact le_max_left _ _
    constructor
    · intro h
      by_contra hc
      exact absurd (hzero.mpr (not_lt.mp hc)) (ne_of_gt h)
    · intro h
      rcases lt_or_eq_of_le hge with hlt | heq
      · exact hlt
      · exact absurd (hzero.mp heq.symm) (not_le.mpr h)
  have hs := ShowFloatingText_filters W Properties self.IncomingDamage
    (W.IsBlockedHit Properties.EffectContextHandle)
    (W.IsCriticalHit Properties.EffectContextHandle)
  refine ⟨?_, ?_, ?_, ?_⟩
  · rw [hzero]
    simp [bFatal]
  · rw [hposH]
    simp [bFatal]
  · intro Target hT hC
    rw [hzero]
    constructor
    · intro hmem
      by_contra hc
      have hlive := not_le.mp hc
      cases hASC : Properties.TargetASC with
      | none =>
        rw [(outcome_of_nonfatal_null W Properties self Data hData hpos hlive hASC).1] at hmem
        exact absurd hmem (List.not_mem_nil _)
      | some ASC =>
        rw [(outcome_of_nonfatal W Properties self Data ASC hData hpos hlive hASC).1] at hmem
        rcases List.mem_cons.mp hmem with h | h
        · exact Event.noConfusion h
        · exact not_mem_of_filter_eq_nil _ Event.isDie (Event.Die Target) hs.1 rfl h
    · intro hfatal
      rw [(outcome_of_fatal W Properties self Data hData hpos hfatal).1]
      apply List.mem_append_left
      simp [fatalBranchCalls, hT, hC]
  · intro ASC hASC
    rw [hposH]
    constructor
    · intro hmem
      by_contra hc
      have hfatal := not_lt.mp hc
      rw [(outcome_of_fatal W Properties self Data hData hpos hfatal).1] at hmem
      rcases List.mem_append.mp hmem with h | h
      · exact not_mem_of_filter_eq_nil _ Event.isHitReact
          (Event.TryActivateAbilitiesByTag ASC [W.GameplayTags.Effects_HitReact])
          (fatalBranchCalls_filter_isHitReact W Properties) rfl h
      · exact not_mem_of_filter_eq_nil _ Event.isHitReact
          (Event.TryActivateAbilitiesByTag ASC [W.GameplayTags.Effects_HitReact]) hs.2.1 rfl h
    · intro hlive
      rw [(outcome_of_nonfatal W Properties self Data ASC hData hpos hlive hASC).1]
      exact List.mem_cons_self _ _

/-- Scenarios 1 and 2 of the specification: a damage of `70` on `Health = 50` is fatal and
stores `0`; a damage of `30` is not fatal and stores a positive `Health`. -/
theorem fatal_iff_health_zero_witness :
    (PostGameplayEffectExecute playerWorld hitProps (mkAttrs 50 100 70) damageData).attrs.Health
        = 0 ∧
      0 < (PostGameplayEffectExecute playerWorld hitProps (mkAttrs 50 100 30)
        damageData).attrs.Health :=
  ⟨(fatal_iff_health_zero playerWorld hitProps (mkAttrs 50 100 70) damageData rfl
      (by norm_num [mkAttrs]) (by norm_num [mkAttrs])).1.mp (by norm_num [bFatal, mkAttrs]),
    (fatal_iff_health_zero playerWorld hitProps (mkAttrs 50 100 30) damageData rfl
      (by norm_num [mkAttrs]) (by norm_num [mkAttrs])).2.1.mp (by norm_num [bFatal, mkAttrs])⟩

/-! ## The MaxHealth calculator -/

/-- C4: for every captured vigor and every level reported by the source object through the
combat interface (levels `>= 0` in particular), `CalculateBaseMagnitude_Implementation`
returns `80 + 2.5 * max(vigor, 0) + 10 * level`; a vigor that is not positive gives the
result of vigor `0`. -/
theorem max_health_formula (W : UWorld) (vigor : ℚ) (level : Int) (Source : ObjId)
    (hC : W.CastICombatInterface Source = true) (hL : W.GetPlayerLevel Source = level) :
    CalculateBaseMagnitude_Implementation W (some vigor) (some Source) =
        Except.ok (80 + 2.5 * max vigor 0 + 10 * (level : ℚ)) ∧
      (vigor ≤ 0 →
        CalculateBaseMagnitude_Implementation W (some vigor) (some Source) =
          CalculateBaseMagnitude_Implementation W (some 0) (some Source)) := by
  have hmax : ∀ v : ℚ, FMath.Max v 0 = max v 0 := by
    intro v
    unfold FMath.Max
    by_cases h : 0 < v
    · rw [if_pos h, max_eq_left (le_of_lt h)]
    · rw [if_neg h, max_eq_right (not_lt.mp h)]
  have hval : ∀ v : ℚ, CalculateBaseMagnitude_Implementation W (some v) (some Source) =
      Except.ok (80 + 2.5 * max v 0 + 10 * (level : ℚ)) := by
    intro v
    unfold CalculateBaseMagnitude_Implementation
    simp only [hC, if_true, hmax, hL]
  refine ⟨hval vigor, ?_⟩
  intro hneg
  rw [hval vigor, hval 0, max_eq_right hneg, max_self]

/-- Scenarios 3 and 4 of the specification: vigor `20` at level `5` gives `180`, and vigor
`-5` at level `0` gives `80`. -/
theorem max_health_formula_witness :
    CalculateBaseMagnitude_Implementation (levelWorld 5) (some 20) (some 1) = Except.ok 180 ∧
      CalculateBaseMagnitude_Implementation (levelWorld 0) (some (-5)) (some 1) =
        Except.ok 80 := by
  constructor
  · rw [(max_health_formula (levelWorld 5) 20 5 1 rfl rfl).1]
    norm_num
  · rw [(max_health_formula (levelWorld 0) (-5) 0 1 rfl rfl).1]
    norm_num

/-! ## Casting without authority -/

/-- C8: for every target location, `SpawnProjectile` invoked on an avatar without authority
returns at the authority check without a fault: after the diagnostic `UE_LOG` line that
precedes the check it spawns no projectile, builds no effect context and no effect spec, and
assigns no caller magnitude. -/
theorem SpawnProjectile_without_authority (W : UWorld) (self : UAuraProjectileSpell)
    (ProjectileTargetLocation : FVector) (Avatar : ObjId)
    (hAvatar : self.AvatarActor = some Avatar) (hAuthority : W.HasAuthority Avatar = false) :
    SpawnProjectile W self ProjectileTargetLocation =
      { calls := [SpellCall.UE_LOG (some Avatar)], fault := none } := by
  unfold SpawnProjectile
  simp [hAvatar, hAuthority]

/-- The fire bolt cast on a client: nothing but the log line. -/
theorem SpawnProjectile_without_authority_witness :
    SpawnProjectile aiWorld fireBolt { X := 1, Y := 2, Z := 3 } =
      { calls := [SpellCall.UE_LOG (some 7)], fault := none } :=
  SpawnProjectile_without_authority aiWorld fireBolt { X := 1, Y := 2, Z := 3 } 7 rfl rfl

end Aura
